import Mathlib

/-!
Shallow embedding of the movie-download-wishlist-webapp Lambda core
(`lambda/src/*.py`): the DynamoDB-backed Movie/Interest store, the
request handlers `create_movie`, `update_movie_status`, `add_interest`,
`remove_interest`, `delete_movie`, `get_movies`, and the shared
validation helpers.

Modelling conventions:
  * A DynamoDB table is a `List` of records; `put_item` is modelled as
    "remove any record with the same key, then cons the new record"
    (DynamoDB keys are unique, `put_item` is an unconditional upsert),
    `delete_item` as a key filter, `query` on the `MovieInterestsIndex`
    GSI as a filter on `movieId`, `scan` as the whole list.
  * `int(time.time())` is a `Nat` parameter `now` supplied by the caller.
  * `str(uuid.uuid4())` is a `String` parameter supplied by the caller.
  * A JSON value that may or may not be a string (`body.get('title')`)
    is `Option JVal`, where `JVal.other` stands for any non-string value.
  * Python `str.strip()` is `pyStrip` (drop leading/trailing whitespace
    characters), `len` is `pyLen` (number of characters).
  * `transact_write_items` is `transactionalDelete`: an oracle Bool
    injects a non-conditional transaction failure; otherwise either the
    condition holds and every delete applies, or nothing applies.
  * The Cognito username lookup in `get_movies` is an oracle
    `resolve : String → Option String` (`none` = lookup failed or user
    absent, in which case the code falls back to the raw id); the
    per-movie interests `query` failure path is an oracle
    `qfail : String → Bool`.
  * API Gateway responses keep the fields the claims talk about:
    `statusCode`, the error `message`, and `errorType`.
-/

/-- A record of the Movies table (`movie_item` in `create_movie.py`). -/
structure Movie where
  movieId : String
  title : String
  status : String
  createdBy : String
  createdAt : Nat
  updatedAt : Nat
deriving Repr, DecidableEq

/-- A record of the Interests table (`interest_item` in `add_interest.py`). -/
structure Interest where
  userId : String
  movieId : String
  createdAt : Nat
deriving Repr, DecidableEq

/-- The two DynamoDB tables. -/
structure Store where
  movies : List Movie
  interests : List Interest
deriving Repr, DecidableEq

/-- A JSON value extracted from a request body: a string, or anything else. -/
inductive JVal where
  | str (s : String)
  | other
deriving Repr, DecidableEq

/-- Response model: `statusCode`, error `message` and `errorType` of
`success_response` / `error_response` / `no_content_response` in
`shared/response.py` (success bodies are modelled per handler where a
claim needs them). -/
structure ApiResponse where
  statusCode : Nat
  message : Option String
  errorType : Option String
deriving Repr, DecidableEq

/-- Python `str.strip()`: drop leading and trailing whitespace characters. -/
def pyStrip (s : String) : String :=
  ⟨List.reverse (List.dropWhile Char.isWhitespace
    (List.reverse (List.dropWhile Char.isWhitespace s.data)))⟩

/-- Python `len` on a string: number of characters. -/
def pyLen (s : String) : Nat := s.data.length

/-- `validate_movie_title` from `shared/validation.py`: `None` and
non-strings are rejected, then the title is rejected if empty after
`strip()` or longer than 500 characters after `strip()`. -/
def validate_movie_title : Option JVal → Bool × Option String
  | none => (false, some "Title is required")
  | some JVal.other => (false, some "Title must be a string")
  | some (JVal.str title) =>
    if pyStrip title = "" then
      (false, some "Title cannot be empty or whitespace only")
    else if pyLen (pyStrip title) > 500 then
      (false, some "Title cannot exceed 500 characters")
    else
      (true, none)

/-- `validate_movie_status` from `shared/validation.py`. -/
def validate_movie_status : Option JVal → Bool × Option String
  | none => (false, some "Status is required")
  | some JVal.other => (false, some "Status must be a string")
  | some (JVal.str status) =>
    if status = "wishlist" || status = "downloaded" then
      (true, none)
    else
      (false, some "Status must be one of: wishlist, downloaded")

/-- `movies_table.get_item(Key={'movieId': movie_id})`. -/
def getMovie (movie_id : String) (s : Store) : Option Movie :=
  s.movies.find? (fun m => m.movieId == movie_id)

/-- `interests_table.get_item` on the composite key `(userId, movieId)`. -/
def getInterest (user_id movie_id : String) (s : Store) : Option Interest :=
  s.interests.find? (fun i => i.userId == user_id && i.movieId == movie_id)

/-- `movies_table.put_item`: unconditional upsert keyed by `movieId`. -/
def putMovie (m : Movie) (s : Store) : Store :=
  ⟨m :: s.movies.filter (fun x => !(x.movieId == m.movieId)), s.interests⟩

/-- `interests_table.put_item`: unconditional upsert keyed by
`(userId, movieId)`. -/
def putInterest (i : Interest) (s : Store) : Store :=
  ⟨s.movies,
   i :: s.interests.filter (fun x => !(x.userId == i.userId && x.movieId == i.movieId))⟩

/-- `interests_table.delete_item`: unconditional key delete. -/
def deleteInterest (user_id movie_id : String) (s : Store) : Store :=
  ⟨s.movies,
   s.interests.filter (fun x => !(x.userId == user_id && x.movieId == movie_id))⟩

/-- `interests_table.query(IndexName='MovieInterestsIndex', ...)`: all
Interests whose `movieId` matches. -/
def queryInterestsByMovie (movie_id : String) (s : Store) : List Interest :=
  s.interests.filter (fun i => i.movieId == movie_id)

/-- Outcome of `transact_write_items` as the handler distinguishes it. -/
inductive TxnResult where
  | committed
  | conditionFailed
  | otherFailure
deriving Repr, DecidableEq

/-- `transact_write_items` with one conditional delete of the movie
(`attribute_exists(movieId)`) plus one unconditional delete per interest
key in `keys`. `txnFail` injects a transaction failure unrelated to the
condition; in every case the writes are all-or-nothing. -/
def transactionalDelete (movie_id : String) (keys : List (String × String))
    (txnFail : Bool) (s : Store) : TxnResult × Store :=
  if txnFail then
    (TxnResult.otherFailure, s)
  else if (getMovie movie_id s).isSome then
    (TxnResult.committed,
     ⟨s.movies.filter (fun m => !(m.movieId == movie_id)),
      s.interests.filter (fun i =>
        !(keys.any (fun k => k.fst == i.userId && k.snd == i.movieId)))⟩)
  else
    (TxnResult.conditionFailed, s)

/-- `delete_movie.lambda_handler` after `movieId` extraction: query the
interests for the movie, build the transaction (conditional movie delete
plus one delete per discovered interest), submit it, and map the outcome
to 204 / 404 `NotFoundError` / 500 `TransactionError`. -/
def delete_movie (movie_id : String) (txnFail : Bool) (s : Store) :
    ApiResponse × Store :=
  let interests := queryInterestsByMovie movie_id s
  let keys := interests.map (fun i => (i.userId, i.movieId))
  match transactionalDelete movie_id keys txnFail s with
  | (TxnResult.committed, s') => (⟨204, none, none⟩, s')
  | (TxnResult.conditionFailed, s') =>
      (⟨404, some "Movie not found", some "NotFoundError"⟩, s')
  | (TxnResult.otherFailure, s') =>
      (⟨500, some "Transaction failed", some "TransactionError"⟩, s')

/-- `add_interest.lambda_handler` after `movieId`/`userId` extraction:
check the movie exists (404 `NotFoundError` otherwise), then put the
interest record unconditionally and answer 201. -/
def add_interest (movie_id user_id : String) (now : Nat) (s : Store) :
    ApiResponse × Store :=
  if (getMovie movie_id s).isSome then
    (⟨201, none, none⟩, putInterest ⟨user_id, movie_id, now⟩ s)
  else
    (⟨404, some "Movie not found", some "NotFoundError"⟩, s)

/-- `remove_interest.lambda_handler` after `movieId`/`userId` extraction:
unconditional `delete_item`, always 204. -/
def remove_interest (movie_id user_id : String) (s : Store) :
    ApiResponse × Store :=
  (⟨204, none, none⟩, deleteInterest user_id movie_id s)

/-- Response of `update_movie_status`: status code, error type, and the
`ALL_NEW` attributes returned on success. -/
structure UpdateResult where
  statusCode : Nat
  errorType : Option String
  attributes : Option Movie
deriving Repr, DecidableEq

/-- `update_movie_status.lambda_handler` after `movieId` extraction and
body parsing: validate the new status, then `update_item` with
`SET #status = :status, updatedAt = :updatedAt` conditional on
`attribute_exists(movieId)`; 404 `NotFoundError` when the condition
fails, otherwise 200 with the updated movie. -/
def update_movie_status (movie_id : String) (body_status : Option JVal)
    (now : Nat) (s : Store) : UpdateResult × Store :=
  if (validate_movie_status body_status).fst then
    let new_status := match body_status with
      | some (JVal.str v) => v
      | _ => ""
    match getMovie movie_id s with
    | none => (⟨404, some "NotFoundError", none⟩, s)
    | some m =>
      let m' : Movie := ⟨m.movieId, m.title, new_status, m.createdBy, m.createdAt, now⟩
      (⟨200, none, some m'⟩,
       ⟨s.movies.map (fun x => if x.movieId == movie_id then m' else x), s.interests⟩)
  else
    (⟨400, some "ValidationError", none⟩, s)

/-- `create_movie.lambda_handler` after body parsing: validate the title
(400 `ValidationError` otherwise), require the Cognito user (401
`AuthError` otherwise), build the movie item with the stripped title,
`wishlist` status and `createdAt = updatedAt = now`, put it, then put
the creator's interest record, and answer 201. The final catch-all
branch models the impossible non-string title after validation passed. -/
def create_movie (body_title : Option JVal) (user : Option String)
    (new_id : String) (now : Nat) (s : Store) : ApiResponse × Store :=
  if (validate_movie_title body_title).fst then
    match user with
    | none => (⟨401, some "Unauthorized - missing user context", some "AuthError"⟩, s)
    | some user_id =>
      match body_title with
      | some (JVal.str title) =>
        let movie : Movie := ⟨new_id, pyStrip title, "wishlist", user_id, now, now⟩
        let s1 := putMovie movie s
        let s2 := putInterest ⟨user_id, new_id, now⟩ s1
        (⟨201, none, none⟩, s2)
      | _ => (⟨500, some "Internal server error", some "ServerError"⟩, s)
  else
    (⟨400, (validate_movie_title body_title).snd, some "ValidationError"⟩, s)

/-- `get_username_from_user_id` from `get_movies.py`: resolve the Cognito
sub to a username, falling back to the raw id when the directory lookup
fails or finds nobody. -/
def get_username_from_user_id (resolve : String → Option String)
    (user_id : String) : String :=
  match resolve user_id with
  | some username => username
  | none => user_id

/-- A movie as returned by `get_movies`: `createdBy` resolved to a
username and the `interestedUsers` list attached. -/
structure EnrichedMovie where
  movieId : String
  title : String
  status : String
  createdBy : String
  createdAt : Nat
  updatedAt : Nat
  interestedUsers : List String
deriving Repr, DecidableEq

/-- The per-movie enrichment loop body of `get_movies.lambda_handler`:
resolve `createdBy`, query the movie's interests (on a `ClientError`,
signalled by `qfail`, fall back to the empty list), and resolve each
interested user. -/
def enrich_movie (resolve : String → Option String) (qfail : String → Bool)
    (s : Store) (m : Movie) : EnrichedMovie :=
  let createdBy := get_username_from_user_id resolve m.createdBy
  let interestedUsers :=
    if qfail m.movieId then
      []
    else
      (queryInterestsByMovie m.movieId s).map
        (fun i => get_username_from_user_id resolve i.userId)
  ⟨m.movieId, m.title, m.status, createdBy, m.createdAt, m.updatedAt, interestedUsers⟩

/-- The descending-`createdAt` comparison of
`enriched_movies.sort(key=lambda x: x.get('createdAt', 0), reverse=True)`. -/
def byCreatedAtDesc (a b : EnrichedMovie) : Bool :=
  decide (b.createdAt ≤ a.createdAt)

/-- `get_movies.lambda_handler`: scan all movies, enrich each one, sort
by `createdAt` newest first, answer 200 with the list. -/
def get_movies (resolve : String → Option String) (qfail : String → Bool)
    (s : Store) : Nat × List EnrichedMovie :=
  let enriched := s.movies.map (enrich_movie resolve qfail s)
  (200, enriched.mergeSort byCreatedAtDesc)

/-! ## Helper lemmas -/

/-- Filtering with a predicate after filtering with its negation leaves nothing. -/
theorem filter_not_filter_self (p : α → Bool) (l : List α) :
    (l.filter (fun a => !(p a))).filter p = [] := by
  induction l with
  | nil => rfl
  | cons x xs ih =>
    by_cases h : p x = true
    · simp [List.filter_cons, h, ih]
    · have h' : p x = false := by simpa using h
      simp [List.filter_cons, h', ih]

/-- Filtering twice with the same predicate is the same as filtering once. -/
theorem filter_filter_self (p : α → Bool) (l : List α) :
    (l.filter p).filter p = l.filter p := by
  induction l with
  | nil => rfl
  | cons x xs ih =>
    by_cases h : p x = true
    · simp [List.filter_cons, h, ih]
    · have h' : p x = false := by simpa using h
      simp [List.filter_cons, h', ih]

/-- Deleting exactly the interest keys discovered by the pre-transaction
query for `mid` deletes exactly the interests whose `movieId` is `mid`. -/
theorem keyFilter_eq_movieFilter (l : List Interest) (mid : String) :
    l.filter (fun i =>
      !(((l.filter (fun j => j.movieId == mid)).map (fun j => (j.userId, j.movieId))).any
          (fun k => k.fst == i.userId && k.snd == i.movieId)))
      = l.filter (fun i => !(i.movieId == mid)) := by
  apply List.filter_congr
  intro a ha
  have key : ((l.filter (fun j => j.movieId == mid)).map (fun j => (j.userId, j.movieId))).any
      (fun k => k.fst == a.userId && k.snd == a.movieId) = (a.movieId == mid) := by
    rw [Bool.eq_iff_iff]
    simp only [List.any_eq_true, List.mem_map, List.mem_filter, beq_iff_eq, Bool.and_eq_true]
    constructor
    · rintro ⟨k, ⟨j, ⟨hj, hjm⟩, hpair⟩, hu, hm⟩
      rw [← hpair] at hm
      simp only at hm
      rw [← hm, hjm]
    · intro hm
      exact ⟨(a.userId, a.movieId), ⟨a, ⟨ha, hm⟩, rfl⟩, rfl, rfl⟩
  rw [key]

/-- C1: deleteMovie is atomic — for any store it either removes the movie
together with every interest referencing it, or leaves the store exactly
as it was; never a partial state. -/
theorem deleteMovie_atomic (mid : String) (txnFail : Bool) (s : Store) :
    (delete_movie mid txnFail s).snd = s ∨
    (delete_movie mid txnFail s).snd =
      ⟨s.movies.filter (fun m => !(m.movieId == mid)),
       s.interests.filter (fun i => !(i.movieId == mid))⟩ := by
  unfold delete_movie transactionalDelete
  cases txnFail with
  | true => left; rfl
  | false =>
    cases h : (getMovie mid s).isSome with
    | false => left; simp [h]
    | true =>
      right
      simp only [h, Bool.false_eq_true, if_false, if_true]
      simp only [queryInterestsByMovie]
      rw [keyFilter_eq_movieFilter]

/-- C2: deleteMovie on a non-existent movieId fails with NotFoundError and
deletes nothing — in particular any interests found by the pre-transaction
query are left untouched, because the failed existence condition on the
movie aborts the whole transaction. -/
theorem deleteMovie_notFound (mid : String) (s : Store)
    (h : getMovie mid s = none) :
    delete_movie mid false s
      = (⟨404, some "Movie not found", some "NotFoundError"⟩, s) := by
  unfold delete_movie transactionalDelete
  simp [h]

/-- Witness for `deleteMovie_notFound`: an empty Movies table next to a
stray interest record referencing the missing movie. -/
theorem deleteMovie_notFound_witness :
    delete_movie "m1" false (Store.mk [] [⟨"u1", "m1", 5⟩])
      = (⟨404, some "Movie not found", some "NotFoundError"⟩,
         Store.mk [] [⟨"u1", "m1", 5⟩]) :=
  deleteMovie_notFound "m1" (Store.mk [] [⟨"u1", "m1", 5⟩]) rfl

/-- C4: addInterest on a non-existent movieId fails with NotFoundError and
creates no Interest record — the store is returned unchanged. -/
theorem addInterest_notFound (mid u : String) (t : Nat) (s : Store)
    (h : getMovie mid s = none) :
    add_interest mid u t s
      = (⟨404, some "Movie not found", some "NotFoundError"⟩, s) := by
  simp [add_interest, h]

/-- Witness for `addInterest_notFound`. -/
theorem addInterest_notFound_witness :
    add_interest "m9" "u1" 7 (Store.mk [⟨"m1", "T", "wishlist", "u0", 0, 0⟩] [])
      = (⟨404, some "Movie not found", some "NotFoundError"⟩,
         Store.mk [⟨"m1", "T", "wishlist", "u0", 0, 0⟩] []) :=
  addInterest_notFound "m9" "u1" 7
    (Store.mk [⟨"m1", "T", "wishlist", "u0", 0, 0⟩] []) (by decide)

/-- C5: removeInterest always succeeds with 204, leaves no Interest stored
for the pair, never touches the Movies table (no movie-existence check —
the statement holds for every store), and repeating the call changes
nothing further. -/
theorem removeInterest_alwaysSucceeds (mid u : String) (s : Store) :
    (remove_interest mid u s).fst = ⟨204, none, none⟩ ∧
    (remove_interest mid u s).snd.movies = s.movies ∧
    (remove_interest mid u s).snd.interests.filter
        (fun i => i.userId == u && i.movieId == mid) = [] ∧
    (remove_interest mid u (remove_interest mid u s).snd).snd
      = (remove_interest mid u s).snd := by
  refine ⟨rfl, rfl, ?_, ?_⟩
  · exact filter_not_filter_self (fun i => i.userId == u && i.movieId == mid) s.interests
  · show Store.mk _ _ = Store.mk _ _
    simp only [remove_interest, deleteInterest]
    rw [filter_filter_self]

/-- C3: addInterest against an existing movie is idempotent — every call
answers 201, the movie stays in place (so every repeat also succeeds),
exactly one Interest record for the (userId, movieId) pair is stored
afterwards, and a repeated call is a no-op overwrite: its end state is
exactly the end state of a single call made with the later clock reading. -/
theorem addInterest_idempotent (mid u : String) (t t' : Nat) (s : Store)
    (m : Movie) (h : getMovie mid s = some m) :
    (add_interest mid u t s).fst = ⟨201, none, none⟩ ∧
    getMovie mid (add_interest mid u t s).snd = some m ∧
    (add_interest mid u t s).snd.interests.filter
        (fun i => i.userId == u && i.movieId == mid) = [⟨u, mid, t⟩] ∧
    (add_interest mid u t' (add_interest mid u t s).snd).snd
      = (add_interest mid u t' s).snd := by
  have hs : (getMovie mid s).isSome = true := by rw [h]; rfl
  have hmovies : (add_interest mid u t s).snd.movies = s.movies := by
    simp [add_interest, hs, putInterest]
  have h2 : getMovie mid (add_interest mid u t s).snd = some m := by
    unfold getMovie at h ⊢
    rw [hmovies]
    exact h
  have hs2 : (getMovie mid (add_interest mid u t s).snd).isSome = true := by
    rw [h2]; rfl
  refine ⟨by simp [add_interest, hs], h2, ?_, ?_⟩
  · simp only [add_interest, hs, if_true, putInterest, List.filter_cons]
    simp only [beq_self_eq_true, Bool.and_self, if_true]
    rw [filter_not_filter_self]
  · have hs' : (s.movies.find? (fun m => m.movieId == mid)).isSome = true := hs
    simp only [add_interest, putInterest, getMovie, hs', if_true, List.filter_cons]
    simp only [beq_self_eq_true, Bool.and_self, Bool.not_true, Bool.false_eq_true, if_false]
    rw [filter_filter_self]

/-- Witness for `addInterest_idempotent` on a one-movie store. -/
theorem addInterest_idempotent_witness :
    (add_interest "m1" "u1" 3 (Store.mk [⟨"m1", "T", "wishlist", "u0", 0, 0⟩] [])).fst
      = ⟨201, none, none⟩ ∧
    getMovie "m1"
        (add_interest "m1" "u1" 3 (Store.mk [⟨"m1", "T", "wishlist", "u0", 0, 0⟩] [])).snd
      = some ⟨"m1", "T", "wishlist", "u0", 0, 0⟩ ∧
    (add_interest "m1" "u1" 3
        (Store.mk [⟨"m1", "T", "wishlist", "u0", 0, 0⟩] [])).snd.interests.filter
        (fun i => i.userId == "u1" && i.movieId == "m1") = [⟨"u1", "m1", 3⟩] ∧
    (add_interest "m1" "u1" 4
        (add_interest "m1" "u1" 3
          (Store.mk [⟨"m1", "T", "wishlist", "u0", 0, 0⟩] [])).snd).snd
      = (add_interest "m1" "u1" 4 (Store.mk [⟨"m1", "T", "wishlist", "u0", 0, 0⟩] [])).snd :=
  addInterest_idempotent "m1" "u1" 3 4 (Store.mk [⟨"m1", "T", "wishlist", "u0", 0, 0⟩] [])
    ⟨"m1", "T", "wishlist", "u0", 0, 0⟩ (by decide)

/-- After `update_item` rewrites the movie with key `mid` to `m'`, looking
the key up finds `m'`. -/
theorem find?_map_update (l : List Movie) (mid : String) (m m' : Movie)
    (h : l.find? (fun x => x.movieId == mid) = some m)
    (h' : (m'.movieId == mid) = true) :
    (l.map (fun x => if x.movieId == mid then m' else x)).find?
        (fun x => x.movieId == mid) = some m' := by
  induction l with
  | nil => simp at h
  | cons x xs ih =>
    by_cases hx : (x.movieId == mid) = true
    · simp only [List.map_cons, if_pos hx, List.find?_cons, h']
    · have hx2 : (x.movieId == mid) = false := by simpa using hx
      simp only [List.find?_cons, hx2] at h
      rw [List.map_cons]
      have hhead : (if (x.movieId == mid) = true then m' else x) = x := if_neg hx
      rw [hhead, List.find?_cons, hx2]
      exact ih h

/-- One successful `update_movie_status` call: with a valid status and an
existing movie, the handler answers 200 with the movie rewritten to the
new status and `updatedAt := now`. -/
theorem update_ok (mid v : String)
    (hv : (validate_movie_status (some (JVal.str v))).fst = true)
    (t : Nat) (s : Store) (m : Movie) (h : getMovie mid s = some m) :
    update_movie_status mid (some (JVal.str v)) t s
      = (⟨200, none, some ⟨m.movieId, m.title, v, m.createdBy, m.createdAt, t⟩⟩,
         ⟨s.movies.map (fun x => if x.movieId == mid then
             ⟨m.movieId, m.title, v, m.createdBy, m.createdAt, t⟩ else x),
          s.interests⟩) := by
  unfold update_movie_status
  rw [hv, if_pos rfl, h]

/-- C6 counterexample: for a movie whose current status is `downloaded`,
updateStatus(id, "downloaded") followed by updateStatus(id, "wishlist")
does NOT return the movie to its original status — it ends at `wishlist`
while the original status was `downloaded`. -/
theorem statusRoundtrip_counterexample :
    (getMovie "m1" (Store.mk [⟨"m1", "T", "downloaded", "u1", 10, 10⟩] [])).map Movie.status
      = some "downloaded" ∧
    (getMovie "m1"
        (update_movie_status "m1" (some (JVal.str "wishlist")) 12
          (update_movie_status "m1" (some (JVal.str "downloaded")) 11
            (Store.mk [⟨"m1", "T", "downloaded", "u1", 10, 10⟩] [])).snd).snd).map Movie.status
      = some "wishlist" ∧
    ("wishlist" : String) ≠ "downloaded" := by
  refine ⟨rfl, ?_, by decide⟩
  decide

/-- C6 (amended): for every existing movie whose current status is
`wishlist`, updateStatus(id, "downloaded") then updateStatus(id,
"wishlist") returns the movie to its original status, each call answers
200 with the movie's `updatedAt` refreshed to that call's clock reading
(the refresh happens even when the new status equals the old one, shown
by the extra call writing the current status), and `updatedAt` is
non-decreasing across the two calls given non-decreasing clock readings. -/
theorem statusRoundtrip_amended (mid : String) (t1 t2 t3 : Nat) (s : Store)
    (m : Movie) (h : getMovie mid s = some m) (hw : m.status = "wishlist")
    (h12 : t1 ≤ t2) :
    ((update_movie_status mid (some (JVal.str "downloaded")) t1 s).fst.statusCode = 200) ∧
    ((update_movie_status mid (some (JVal.str "downloaded")) t1 s).fst.attributes
       = some ⟨m.movieId, m.title, "downloaded", m.createdBy, m.createdAt, t1⟩) ∧
    ((update_movie_status mid (some (JVal.str "wishlist")) t2
        (update_movie_status mid (some (JVal.str "downloaded")) t1 s).snd).fst.statusCode
       = 200) ∧
    ((update_movie_status mid (some (JVal.str "wishlist")) t2
        (update_movie_status mid (some (JVal.str "downloaded")) t1 s).snd).fst.attributes
       = some ⟨m.movieId, m.title, m.status, m.createdBy, m.createdAt, t2⟩) ∧
    t1 ≤ t2 ∧
    ((update_movie_status mid (some (JVal.str m.status)) t3 s).fst.attributes
       = some ⟨m.movieId, m.title, m.status, m.createdBy, m.createdAt, t3⟩) := by
  have hv1 : (validate_movie_status (some (JVal.str "downloaded"))).fst = true := by decide
  have hv2 : (validate_movie_status (some (JVal.str "wishlist"))).fst = true := by decide
  have hm : (m.movieId == mid) = true :=
    List.find?_some (p := fun (x : Movie) => x.movieId == mid) h
  have e1 := update_ok mid "downloaded" hv1 t1 s m h
  have h2 : getMovie mid (update_movie_status mid (some (JVal.str "downloaded")) t1 s).snd
      = some ⟨m.movieId, m.title, "downloaded", m.createdBy, m.createdAt, t1⟩ := by
    rw [e1]
    exact find?_map_update s.movies mid m _ h hm
  have e2 := update_ok mid "wishlist" hv2 t2
    (update_movie_status mid (some (JVal.str "downloaded")) t1 s).snd _ h2
  have e3 : update_movie_status mid (some (JVal.str m.status)) t3 s
      = (⟨200, none, some ⟨m.movieId, m.title, m.status, m.createdBy, m.createdAt, t3⟩⟩,
         ⟨s.movies.map (fun x => if x.movieId == mid then
              ⟨m.movieId, m.title, m.status, m.createdBy, m.createdAt, t3⟩ else x),
          s.interests⟩) := by
    rw [hw]
    exact update_ok mid "wishlist" hv2 t3 s m h
  refine ⟨by rw [e1], by rw [e1], by rw [e2], ?_, h12, by rw [e3]⟩
  rw [e2, hw]

/-- Witness for `statusRoundtrip_amended` on a one-movie wishlist store. -/
theorem statusRoundtrip_amended_witness :
    ((update_movie_status "m1" (some (JVal.str "downloaded")) 11
        (Store.mk [⟨"m1", "T", "wishlist", "u1", 10, 10⟩] [])).fst.statusCode = 200) ∧
    ((update_movie_status "m1" (some (JVal.str "downloaded")) 11
        (Store.mk [⟨"m1", "T", "wishlist", "u1", 10, 10⟩] [])).fst.attributes
       = some ⟨"m1", "T", "downloaded", "u1", 10, 11⟩) ∧
    ((update_movie_status "m1" (some (JVal.str "wishlist")) 12
        (update_movie_status "m1" (some (JVal.str "downloaded")) 11
          (Store.mk [⟨"m1", "T", "wishlist", "u1", 10, 10⟩] [])).snd).fst.statusCode = 200) ∧
    ((update_movie_status "m1" (some (JVal.str "wishlist")) 12
        (update_movie_status "m1" (some (JVal.str "downloaded")) 11
          (Store.mk [⟨"m1", "T", "wishlist", "u1", 10, 10⟩] [])).snd).fst.attributes
       = some ⟨"m1", "T", "wishlist", "u1", 10, 12⟩) ∧
    (11 : Nat) ≤ 12 ∧
    ((update_movie_status "m1" (some (JVal.str "wishlist")) 13
        (Store.mk [⟨"m1", "T", "wishlist", "u1", 10, 10⟩] [])).fst.attributes
       = some ⟨"m1", "T", "wishlist", "u1", 10, 13⟩) :=
  statusRoundtrip_amended "m1" 11 12 13
    (Store.mk [⟨"m1", "T", "wishlist", "u1", 10, 10⟩] [])
    ⟨"m1", "T", "wishlist", "u1", 10, 10⟩ (by decide) rfl (by decide)

/-- If no element satisfies `p` (the key lookup misses), filtering out the
`p`-elements keeps the list unchanged. -/
theorem filter_not_eq_self_of_find?_none (p : α → Bool) (l : List α)
    (h : l.find? p = none) : l.filter (fun a => !(p a)) = l := by
  rw [List.filter_eq_self]
  intro a ha
  have hp := List.find?_eq_none.mp h a ha
  simp only [Bool.not_eq_true'] at hp ⊢
  simpa using hp

/-- C7: title validation boundary — a title of trimmed length exactly 500
is accepted; trimmed length 501 is rejected with ValidationError; an
empty-after-trim title is rejected with ValidationError and the message
indicating emptiness; an absent or non-string title is rejected with
ValidationError. -/
theorem titleValidation_boundary (t500 t501 e : String) (u : Option String)
    (nid : String) (now : Nat) (s : Store) :
    (pyLen (pyStrip t500) = 500 →
      (validate_movie_title (some (JVal.str t500))).fst = true) ∧
    (pyLen (pyStrip t501) = 501 →
      create_movie (some (JVal.str t501)) u nid now s
        = (⟨400, some "Title cannot exceed 500 characters", some "ValidationError"⟩, s)) ∧
    (pyStrip e = "" →
      create_movie (some (JVal.str e)) u nid now s
        = (⟨400, some "Title cannot be empty or whitespace only", some "ValidationError"⟩, s)) ∧
    (create_movie none u nid now s
       = (⟨400, some "Title is required", some "ValidationError"⟩, s)) ∧
    (create_movie (some JVal.other) u nid now s
       = (⟨400, some "Title must be a string", some "ValidationError"⟩, s)) := by
  refine ⟨?_, ?_, ?_, ?_, ?_⟩
  · intro h
    have h1 : ¬ (pyStrip t500 = "") := by
      intro he
      rw [he] at h
      exact absurd h (by decide)
    have h2 : ¬ (pyLen (pyStrip t500) > 500) := by
      rw [h]
      decide
    simp only [validate_movie_title, if_neg h1, if_neg h2]
  · intro h
    have h1 : ¬ (pyStrip t501 = "") := by
      intro he
      rw [he] at h
      exact absurd h (by decide)
    have h2 : pyLen (pyStrip t501) > 500 := by
      rw [h]
      decide
    have hv : validate_movie_title (some (JVal.str t501))
        = (false, some "Title cannot exceed 500 characters") := by
      simp only [validate_movie_title, if_neg h1, if_pos h2]
    simp [create_movie, hv]
  · intro h
    have hv : validate_movie_title (some (JVal.str e))
        = (false, some "Title cannot be empty or whitespace only") := by
      simp only [validate_movie_title, if_pos h]
    simp [create_movie, hv]
  · rfl
  · rfl

set_option maxRecDepth 4000 in
/-- Witness for `titleValidation_boundary`: a 500-character title, a
501-character title, and a whitespace-only title. -/
theorem titleValidation_boundary_witness :
    (validate_movie_title (some (JVal.str (String.mk (List.replicate 500 'a'))))).fst = true ∧
    create_movie (some (JVal.str (String.mk (List.replicate 501 'a')))) none "id" 0
        (Store.mk [] [])
      = (⟨400, some "Title cannot exceed 500 characters", some "ValidationError"⟩,
         Store.mk [] []) ∧
    create_movie (some (JVal.str " ")) none "id" 0 (Store.mk [] [])
      = (⟨400, some "Title cannot be empty or whitespace only", some "ValidationError"⟩,
         Store.mk [] []) ∧
    create_movie none none "id" 0 (Store.mk [] [])
      = (⟨400, some "Title is required", some "ValidationError"⟩, Store.mk [] []) ∧
    create_movie (some JVal.other) none "id" 0 (Store.mk [] [])
      = (⟨400, some "Title must be a string", some "ValidationError"⟩, Store.mk [] []) := by
  obtain ⟨h1, h2, h3, h4, h5⟩ := titleValidation_boundary
    (String.mk (List.replicate 500 'a')) (String.mk (List.replicate 501 'a')) " "
    none "id" 0 (Store.mk [] [])
  exact ⟨h1 (by decide), h2 (by decide), h3 (by decide), h4, h5⟩

/-- C8: a successful createMovie answers 201 and stores the movie with the
title stripped of surrounding whitespace, status `wishlist`,
`createdAt = updatedAt = now`, the fresh `movieId`, exactly one movie
under that id, and — as a coupled side effect — an Interest record for
the creator on the same movie. -/
theorem createMovie_success (t u nid : String) (now : Nat) (s : Store)
    (hv : (validate_movie_title (some (JVal.str t))).fst = true)
    (hf : getMovie nid s = none) :
    (create_movie (some (JVal.str t)) (some u) nid now s).fst = ⟨201, none, none⟩ ∧
    (create_movie (some (JVal.str t)) (some u) nid now s).snd.movies
      = ⟨nid, pyStrip t, "wishlist", u, now, now⟩ :: s.movies ∧
    (create_movie (some (JVal.str t)) (some u) nid now s).snd.movies.filter
        (fun x => x.movieId == nid)
      = [⟨nid, pyStrip t, "wishlist", u, now, now⟩] ∧
    getInterest u nid (create_movie (some (JVal.str t)) (some u) nid now s).snd
      = some ⟨u, nid, now⟩ := by
  have hff : s.movies.find? (fun x => x.movieId == nid) = none := hf
  have e : create_movie (some (JVal.str t)) (some u) nid now s
      = (⟨201, none, none⟩,
         putInterest ⟨u, nid, now⟩
           (putMovie ⟨nid, pyStrip t, "wishlist", u, now, now⟩ s)) := by
    unfold create_movie
    rw [hv, if_pos rfl]
  refine ⟨by rw [e], ?_, ?_, ?_⟩
  · rw [e]
    show (⟨nid, pyStrip t, "wishlist", u, now, now⟩ : Movie) ::
        s.movies.filter (fun x => !(x.movieId == nid)) = _
    rw [filter_not_eq_self_of_find?_none _ _ hff]
  · rw [e]
    show ((⟨nid, pyStrip t, "wishlist", u, now, now⟩ : Movie) ::
        s.movies.filter (fun x => !(x.movieId == nid))).filter
        (fun x => x.movieId == nid) = _
    rw [List.filter_cons]
    simp only [beq_self_eq_true, if_true]
    rw [filter_not_filter_self]
  · rw [e]
    show (((⟨u, nid, now⟩ : Interest) :: _).find?
        (fun i => i.userId == u && i.movieId == nid)) = _
    rw [List.find?_cons]
    simp [beq_self_eq_true]

/-- Witness for `createMovie_success`: the spec scenario — title
`"  Inception  "` by user `u1` is stored as `"Inception"`. -/
theorem createMovie_success_witness :
    (create_movie (some (JVal.str "  Inception  ")) (some "u1") "id1" 7
        (Store.mk [] [])).fst = ⟨201, none, none⟩ ∧
    (create_movie (some (JVal.str "  Inception  ")) (some "u1") "id1" 7
        (Store.mk [] [])).snd.movies
      = [⟨"id1", "Inception", "wishlist", "u1", 7, 7⟩] ∧
    (create_movie (some (JVal.str "  Inception  ")) (some "u1") "id1" 7
        (Store.mk [] [])).snd.movies.filter (fun x => x.movieId == "id1")
      = [⟨"id1", "Inception", "wishlist", "u1", 7, 7⟩] ∧
    getInterest "u1" "id1"
        (create_movie (some (JVal.str "  Inception  ")) (some "u1") "id1" 7
          (Store.mk [] [])).snd
      = some ⟨"u1", "id1", 7⟩ :=
  createMovie_success "  Inception  " "u1" "id1" 7 (Store.mk [] [])
    (by decide) (by decide)

/-- C9: listMoviesEnriched answers 200 with the enriched movie sequence
(a permutation of one enriched entry per stored movie) sorted by
`createdAt` descending, and on the empty store it returns the empty
sequence with a success result, never an error. -/
theorem listMovies_sorted_and_empty (resolve : String → Option String)
    (qfail : String → Bool) (s : Store) :
    (get_movies resolve qfail s).fst = 200 ∧
    List.Pairwise (fun a b => b.createdAt ≤ a.createdAt)
      (get_movies resolve qfail s).snd ∧
    (get_movies resolve qfail s).snd.Perm
      (s.movies.map (enrich_movie resolve qfail s)) ∧
    get_movies resolve qfail (Store.mk [] []) = (200, []) := by
  refine ⟨rfl, ?_, ?_, by simp [get_movies]⟩
  · have htrans : ∀ (a b c : EnrichedMovie),
        byCreatedAtDesc a b → byCreatedAtDesc b c → byCreatedAtDesc a c := by
      intro a b c hab hbc
      simp only [byCreatedAtDesc, decide_eq_true_eq] at hab hbc ⊢
      omega
    have htotal : ∀ (a b : EnrichedMovie),
        byCreatedAtDesc a b || byCreatedAtDesc b a := by
      intro a b
      simp only [byCreatedAtDesc, Bool.or_eq_true, decide_eq_true_eq]
      omega
    have hs := List.sorted_mergeSort htrans htotal
      (s.movies.map (enrich_movie resolve qfail s))
    exact hs.imp (fun hab => by simpa [byCreatedAtDesc] using hab)
  · exact List.mergeSort_perm _ _

/-- C10: when the per-movie interests query fails for some movie,
listMoviesEnriched still answers 200 and includes that movie, with its
`interestedUsers` set to the empty list, instead of failing the listing. -/
theorem listMovies_queryFailure_degrades (resolve : String → Option String)
    (qfail : String → Bool) (s : Store) (m : Movie)
    (hm : m ∈ s.movies) (hq : qfail m.movieId = true) :
    (get_movies resolve qfail s).fst = 200 ∧
    enrich_movie resolve qfail s m ∈ (get_movies resolve qfail s).snd ∧
    (enrich_movie resolve qfail s m).interestedUsers = [] := by
  refine ⟨rfl, ?_, ?_⟩
  · show _ ∈ (s.movies.map (enrich_movie resolve qfail s)).mergeSort byCreatedAtDesc
    rw [List.mem_mergeSort]
    exact List.mem_map_of_mem _ hm
  · simp [enrich_movie, hq]

/-- Witness for `listMovies_queryFailure_degrades`: one movie with one
interest whose per-movie query fails. -/
theorem listMovies_queryFailure_degrades_witness :
    (get_movies (fun _ => none) (fun _ => true)
        (Store.mk [⟨"m1", "T", "wishlist", "u1", 1, 2⟩] [⟨"u1", "m1", 1⟩])).fst = 200 ∧
    enrich_movie (fun _ => none) (fun _ => true)
        (Store.mk [⟨"m1", "T", "wishlist", "u1", 1, 2⟩] [⟨"u1", "m1", 1⟩])
        ⟨"m1", "T", "wishlist", "u1", 1, 2⟩
      ∈ (get_movies (fun _ => none) (fun _ => true)
          (Store.mk [⟨"m1", "T", "wishlist", "u1", 1, 2⟩] [⟨"u1", "m1", 1⟩])).snd ∧
    (enrich_movie (fun _ => none) (fun _ => true)
        (Store.mk [⟨"m1", "T", "wishlist", "u1", 1, 2⟩] [⟨"u1", "m1", 1⟩])
        ⟨"m1", "T", "wishlist", "u1", 1, 2⟩).interestedUsers = [] :=
  listMovies_queryFailure_degrades (fun _ => none) (fun _ => true)
    (Store.mk [⟨"m1", "T", "wishlist", "u1", 1, 2⟩] [⟨"u1", "m1", 1⟩])
    ⟨"m1", "T", "wishlist", "u1", 1, 2⟩ (by decide) rfl
